import Mathlib

/-!
Verification of the metadata-publication step (`StoreMetadataPlugin` in
`atomic_reactor/plugins/exit_store_metadata.py`).

The Python module is shallowly embedded: Python dicts become ordered
association lists over `String` keys (`dget?` / `dinsert` / `dupdate`
reproduce Python's first-key lookup, in-place overwrite and `dict.update`),
Python values become the inductive `PyVal`, stage results become
`StageResult` (an `Exception` stored in a result store is `failure`), and
`json.dumps` becomes `jsonDumps`.  Interactions with external collaborators
(the registry, the OpenShift client) are inputs of the `Workflow` record,
and the two remote calls of `run` are recorded in an explicit trace.
-/

/-- A Python value as it appears in the plugin's data flow: strings,
integers, `None`, lists and string-keyed dicts. -/
inductive PyVal where
  | str : String → PyVal
  | int : Int → PyVal
  | none : PyVal
  | list : List PyVal → PyVal
  | dict : List (String × PyVal) → PyVal


/-- Python truthiness (`if value:`) for the embedded values. -/
def PyVal.isTruthy : PyVal → Bool
  | .str s => !(s = "")
  | .int n => !(n = 0)
  | .none => false
  | .list xs => !xs.isEmpty
  | .dict kvs => !kvs.isEmpty

/-- Whether a value is a Python `str`. -/
def PyVal.isStr : PyVal → Bool
  | .str _ => true
  | _ => false

/-- The elements of a value that the code treats as a list of strings
(the payload of the verify-media stage).  Non-list payloads contribute
nothing; the real pipeline only ever stores a list of media-type strings
here. -/
def PyVal.strItems : PyVal → List String
  | .list xs => xs.map fun v => match v with | .str s => s | _ => ""
  | _ => []

/-- Escaping applied by `json.dumps` to string contents; quotes and
backslashes are the escapes exercised by this plugin's data. -/
def jsonEscape (s : String) : String :=
  String.mk (s.data.flatMap fun c => if c = '"' || c = '\\' then ['\\', c] else [c])

mutual

/-- Embedding of `json.dumps` with its default separators. -/
def jsonDumps : PyVal → String
  | .str s => "\"" ++ jsonEscape s ++ "\""
  | .int n => toString n
  | .none => "null"
  | .list xs => "[" ++ jsonArrayBody xs ++ "]"
  | .dict kvs => "\x7b" ++ jsonObjectBody kvs ++ "\x7d"

/-- Comma-joined encodings of the elements of a JSON array. -/
def jsonArrayBody : List PyVal → String
  | [] => ""
  | [v] => jsonDumps v
  | v :: vs => jsonDumps v ++ ", " ++ jsonArrayBody vs

/-- Comma-joined `"key": value` encodings of a JSON object. -/
def jsonObjectBody : List (String × PyVal) → String
  | [] => ""
  | [(k, v)] => "\"" ++ jsonEscape k ++ "\": " ++ jsonDumps v
  | (k, v) :: kvs => "\"" ++ jsonEscape k ++ "\": " ++ jsonDumps v ++ ", " ++ jsonObjectBody kvs

end

/-- Embedding of Python `str(value)` as used on label values.  Scalars
render as in Python; for structured values (which the label sources do not
produce in practice) the JSON rendering stands in for Python's `repr`. -/
def pyStr : PyVal → String
  | .str s => s
  | .int n => toString n
  | .none => "None"
  | v => jsonDumps v

/-- Lookup in a Python dict embedded as an association list
(&#96;d.get(k)&#96; / `d[k]`): the first entry with the key. -/
def dget? {α : Type} : List (String × α) → String → Option α
  | [], _ => Option.none
  | (k', v) :: rest, k => if k' = k then some v else dget? rest k

/-- Assignment `d[k] = v` on a Python dict: overwrite in place if the key
exists, otherwise append. -/
def dinsert {α : Type} : List (String × α) → String → α → List (String × α)
  | [], k, v => [(k, v)]
  | (k', v') :: rest, k, v =>
    if k' = k then (k', v) :: rest else (k', v') :: dinsert rest k v

/-- Python `d.update(u)`: assign every entry of `u` into `d` in order. -/
def dupdate {α : Type} (d : List (String × α)) (u : List (String × α)) :
    List (String × α) :=
  u.foldl (fun acc kv => dinsert acc kv.1 kv.2) d

/-- Embedding of `os.path.basename`: the part of the path after the last
slash. -/
def basename (s : String) : String :=
  String.mk ((s.data.reverse.takeWhile fun c => c ≠ '/').reverse)

/-- Computable lexicographic comparison of strings (on their character
lists); agrees with the `<` order on `String`. -/
def strLt (a b : String) : Bool :=
  decide (a.data < b.data)

/-- Insertion step of the sort performed by Python's `sorted` on the
deduplicated media types. -/
def insertStr (s : String) : List String → List String
  | [] => [s]
  | t :: rest => if strLt s t then s :: t :: rest else t :: insertStr s rest

/-- Insertion sort of strings in lexicographic order. -/
def sortStrs : List String → List String
  | [] => []
  | s :: rest => insertStr s (sortStrs rest)

/-- Embedding of `sorted(list(set(l)))` on a list of strings: deduplicate,
then sort lexicographically. -/
def pySortedSet (l : List String) : List String :=
  sortStrs l.dedup

/-- A tagged image reference as produced upstream (`ImageName` in the
surrounding project): registry host, repository path and tag. -/
structure ImageName where
  registry : String
  repo : String
  tag : String


/-- Rendering `image.to_str()`: registry, repository and tag. -/
def ImageName.to_str (i : ImageName) : String :=
  i.registry ++ "/" ++ i.repo ++ ":" ++ i.tag

/-- Rendering `image.to_str(registry=False, tag=False)`: the repository
path alone. -/
def ImageName.to_str_no_registry_no_tag (i : ImageName) : String :=
  i.repo

/-- Modelled from the spec: the workflow's tag configuration, which is not
under src.  It holds the classified image references as three ordered
sequences (primary, unique, floating). -/
structure TagConf where
  primary_images : List ImageName
  unique_images : List ImageName
  floating_images : List ImageName


/-- Modelled from the spec: the full input sequence of tagged image
references (`tag_conf.images`), the concatenation of the three groups. -/
def TagConf.images (tc : TagConf) : List ImageName :=
  tc.primary_images ++ tc.unique_images ++ tc.floating_images

/-- Modelled from the spec: a `ManifestDigestSet` (the osbs
`ManifestDigest` class, an external collaborator) — for one image, a
digest string per content type.  `content_type` is the iteration order of
the known content types and `entries` holds the digests that exist; a
missing or falsy digest for a content type is simply not an entry. -/
structure ManifestDigest where
  content_type : List String
  entries : List (String × String)


/-- One pull-specification record as built by `get_pullspecs`. -/
structure PullSpec where
  registry : String
  repository : String
  tag : String
  digest : String
  version : String


/-- The dict pushed for one pull spec. -/
def PullSpec.toPyVal (p : PullSpec) : PyVal :=
  .dict [("registry", .str p.registry), ("repository", .str p.repository),
         ("tag", .str p.tag), ("digest", .str p.digest), ("version", .str p.version)]

/-- A stored stage result: either a success payload or an `Exception`
instance recorded by the pipeline framework. -/
inductive StageResult where
  | success : PyVal → StageResult
  | failure : StageResult


/-- The record for one exported artifact in
`wf_data.exported_image_sequence`; each field is `info.get(...)` and may
be missing. -/
structure ExportedImage where
  path : Option String
  size : Option Int
  md5sum : Option String
  sha256sum : Option String


/-- The build result's contributions (`wf_data.build_result`). -/
structure BuildResult where
  annotations : List (String × PyVal)
  labels : List (String × PyVal)


/-- The workflow state read by the plugin.  External interactions are
already reflected as data: `digests` is what `get_digests` obtained from
the registry, `fs_usage` is the filesystem sampler's output (`none` when
sampling failed), `base_image_inspect_id` is the inspected base-image id,
`commit_id`/`df_path` are `none` when the corresponding attribute access
raises `AttributeError`, and `df_contents` is what reading `df_path`
yields when it is available. -/
structure Workflow where
  user_params : List (String × String)
  prebuild_results : List (String × StageResult)
  postbuild_results : List (String × StageResult)
  exit_results : List (String × StageResult)
  tag_conf : TagConf
  digests : List (String × ManifestDigest)
  plugins_errors : PyVal
  plugins_timestamps : PyVal
  plugins_durations : PyVal
  fs_usage : Option PyVal
  annotations : List (String × PyVal)
  labels : List (String × PyVal)
  build_result : BuildResult
  task_annotations_whitelist : Option PyVal
  commit_id : Option String
  df_path : Option String
  df_contents : String
  original_base_image : Option String
  base_from_scratch : Bool
  base_image_inspect_id : Option String
  parent_images : List (String × String)
  image_id : Option String
  koji_source_manifest : Option String
  exported_image_sequence : List ExportedImage


/-- Plugin key constant (from the project's constants module, which is not
under src; the exact identifier strings are opaque to this plugin). -/
def PLUGIN_FETCH_SOURCES_KEY : String := "fetch_sources"

/-- Plugin key constant for the koji upload plugin. -/
def PLUGIN_KOJI_UPLOAD_PLUGIN_KEY : String := "koji_upload"

/-- Plugin key constant for the verify-media plugin. -/
def PLUGIN_VERIFY_MEDIA_KEY : String := "verify_media"

/-- Plugin key constant for the remote-source resolution plugin. -/
def PLUGIN_RESOLVE_REMOTE_SOURCE : String := "resolve_remote_source"

/-- The sentinel name of the scratch base image. -/
def SCRATCH_FROM : String := "scratch"

/-- `self.source_build`: whether the fetch-sources stage ran
(&#96;PLUGIN_FETCH_SOURCES_KEY in prebuild_results&#96;). -/
def source_build (wf : Workflow) : Bool :=
  (dget? wf.prebuild_results PLUGIN_FETCH_SOURCES_KEY).isSome

/-- `StoreMetadataPlugin.get_result`: an `Exception` result collapses to
the empty string. -/
def get_result : StageResult → PyVal
  | .failure => .str ""
  | .success p => p

/-- `get_pre_result`: read a pre-build stage result with default `''`. -/
def get_pre_result (wf : Workflow) (key : String) : PyVal :=
  get_result ((dget? wf.prebuild_results key).getD (.success (.str "")))

/-- `get_post_result`: read a post-build stage result with default `''`. -/
def get_post_result (wf : Workflow) (key : String) : PyVal :=
  get_result ((dget? wf.postbuild_results key).getD (.success (.str "")))

/-- `get_exit_result`: read an exit-stage result with default `''`. -/
def get_exit_result (wf : Workflow) (key : String) : PyVal :=
  get_result ((dget? wf.exit_results key).getD (.success (.str "")))

/-- `get_config_map`: the koji-upload stage's annotations, `{}` when falsy.
The payload is a dict in the data model; its entries pass through
unserialized. -/
def get_config_map (wf : Workflow) : List (String × PyVal) :=
  match get_post_result wf PLUGIN_KOJI_UPLOAD_PLUGIN_KEY with
  | .dict kvs => kvs
  | _ => []

/-- The three named repository groups returned by `get_repositories`. -/
structure Repositories where
  primary : List String
  unique : List String
  floating : List String

/-- `get_repositories`: render each group of tag-configuration images in
order. -/
def get_repositories (tc : TagConf) : Repositories :=
  { primary := tc.primary_images.map ImageName.to_str
    unique := tc.unique_images.map ImageName.to_str
    floating := tc.floating_images.map ImageName.to_str }

/-- The dict pushed for the repositories annotation. -/
def Repositories.toPyVal (r : Repositories) : PyVal :=
  .dict [("primary", .list (r.primary.map PyVal.str)),
         ("unique", .list (r.unique.map PyVal.str)),
         ("floating", .list (r.floating.map PyVal.str))]

/-- `get_pullspecs`: for each tag-configuration image found in the digest
map, one record per content type that has a digest. -/
def get_pullspecs (tc : TagConf) (digests : List (String × ManifestDigest)) :
    List PullSpec :=
  (TagConf.images tc).flatMap fun image =>
    match dget? digests image.to_str with
    | Option.none => []
    | some digest =>
      digest.content_type.filterMap fun digest_version =>
        match dget? digest.entries digest_version with
        | Option.none => Option.none
        | some d => some { registry := image.registry,
                           repository := image.to_str_no_registry_no_tag,
                           tag := image.tag, digest := d,
                           version := digest_version }

/-- `get_plugin_metadata`: errors, timestamps and durations of all
plugins. -/
def get_plugin_metadata (wf : Workflow) : PyVal :=
  .dict [("errors", wf.plugins_errors), ("timestamps", wf.plugins_timestamps),
         ("durations", wf.plugins_durations)]

/-- `get_filesystem_metadata`: the sampler's data, `{}` when sampling
raised. -/
def get_filesystem_metadata (wf : Workflow) : PyVal :=
  wf.fs_usage.getD (.dict [])

/-- `_update_labels`: when `updates` is truthy, stringify every value and
merge. -/
def update_labels (labels : List (String × PyVal)) (updates : List (String × PyVal)) :
    List (String × PyVal) :=
  if updates.isEmpty then labels
  else dupdate labels (updates.map fun kv => (kv.1, PyVal.str (pyStr kv.2)))

/-- `make_labels`: workflow labels, then build-result labels, then the
re-stringification of `sources_for_koji_build_id`. -/
def make_labels (wf : Workflow) : List (String × PyVal) :=
  match dget? (update_labels (update_labels [] wf.labels) wf.build_result.labels)
      "sources_for_koji_build_id" with
  | some v =>
    dinsert (update_labels (update_labels [] wf.labels) wf.build_result.labels)
      "sources_for_koji_build_id" (.str (pyStr v))
  | Option.none => update_labels (update_labels [] wf.labels) wf.build_result.labels

/-- `_update_annotations`: when `updates` is truthy, JSON-encode every
value and merge. -/
def update_annotations (a : List (String × PyVal)) (updates : List (String × PyVal)) :
    List (String × PyVal) :=
  if updates.isEmpty then a
  else dupdate a (updates.map fun kv => (kv.1, PyVal.str (jsonDumps kv.2)))

/-- The reduced `{name, url}` entries of `apply_remote_source_annotations`;
`none` models the `TypeError`/`KeyError` that the code catches.  The empty
string (the accessor's default) iterates to nothing in Python and so
yields the empty entry list. -/
def remoteSourcesVal? (wf : Workflow) : Option (List PyVal) :=
  match get_pre_result wf PLUGIN_RESOLVE_REMOTE_SOURCE with
  | .str s => if s = "" then some [] else Option.none
  | .list xs =>
    xs.mapM fun x =>
      match x with
      | .dict kvs =>
        match dget? kvs "name", dget? kvs "url" with
        | some n, some u => some (PyVal.dict [("name", n), ("url", u)])
        | _, _ => Option.none
      | _ => Option.none
  | _ => Option.none

/-- `apply_remote_source_annotations`: set `remote_sources` only when the
entries could be built and are non-empty. -/
def remoteStep (wf : Workflow) (a : List (String × PyVal)) : List (String × PyVal) :=
  match remoteSourcesVal? wf with
  | some [] => a
  | some l => dinsert a "remote_sources" (.str (jsonDumps (.list l)))
  | Option.none => a

/-- The last exported artifact's four tar fields, available only when all
four are present (`tar_path`/`tar_size`/`tar_md5sum`/`tar_sha256sum` all
non-None). -/
structure TarInfo where
  path : String
  size : Int
  md5sum : String
  sha256sum : String

/-- Extract the tar fields from the most recently exported artifact. -/
def tarInfo (wf : Workflow) : Option TarInfo :=
  match wf.exported_image_sequence.getLast? with
  | Option.none => Option.none
  | some info =>
    match info.path, info.size, info.md5sum, info.sha256sum with
    | some p, some s, some m, some h => some { path := p, size := s, md5sum := m, sha256sum := h }
    | _, _, _, _ => Option.none

/-- The dict pushed under `tar_metadata`. -/
def tarMetadataVal (t : TarInfo) : PyVal :=
  .dict [("size", .int t.size), ("md5sum", .str t.md5sum),
         ("sha256sum", .str t.sha256sum), ("filename", .str (basename t.path))]

/-- The conditional `tar_metadata` insertion of `run`. -/
def tarStep (wf : Workflow) (a : List (String × PyVal)) : List (String × PyVal) :=
  match tarInfo wf with
  | some t => dinsert a "tar_metadata" (.str (jsonDumps (tarMetadataVal t)))
  | Option.none => a

/-- The media types gathered by `run` from the verify-media exit result:
an `Exception` becomes `None`, a falsy result contributes nothing. -/
def mediaTypes (wf : Workflow) : List String :=
  match dget? wf.exit_results PLUGIN_VERIFY_MEDIA_KEY with
  | some (StageResult.success v) => if v.isTruthy then v.strItems else []
  | _ => []

/-- The conditional `media-types` insertion of `run`:
`json.dumps(sorted(list(set(media_types))))` when non-empty. -/
def mediaStep (wf : Workflow) (a : List (String × PyVal)) : List (String × PyVal) :=
  if (mediaTypes wf).isEmpty then a
  else dinsert a "media-types"
    (.str (jsonDumps (.list ((pySortedSet (mediaTypes wf)).map PyVal.str))))

/-- The annotation dict literal of `run`. -/
def baseAnnotations (wf : Workflow) : List (String × PyVal) :=
  [("repositories", .str (jsonDumps (get_repositories wf.tag_conf).toPyVal)),
   ("digests", .str (jsonDumps (.list ((get_pullspecs wf.tag_conf wf.digests).map PullSpec.toPyVal)))),
   ("plugins-metadata", .str (jsonDumps (get_plugin_metadata wf))),
   ("filesystem", .str (jsonDumps (get_filesystem_metadata wf)))]

/-- The source-build / full-build branch of `run`: `image-id` for a source
build; dockerfile, commit, base-image and parent-image fields for a full
build. -/
def branchAnnotations (wf : Workflow) (a : List (String × PyVal)) :
    List (String × PyVal) :=
  if source_build wf then
    dinsert a "image-id" (.str ((wf.koji_source_manifest).getD ""))
  else
    let bpair : String × String :=
      match wf.original_base_image, wf.base_from_scratch with
      | some b, false => (b, (wf.base_image_inspect_id).getD "")
      | _, _ => ("", "")
    let parents :=
      if wf.base_from_scratch then dinsert wf.parent_images SCRATCH_FROM SCRATCH_FROM
      else wf.parent_images
    let dockerfile_contents :=
      match wf.df_path with
      | some _ => wf.df_contents
      | Option.none => ""
    let a := dinsert a "dockerfile" (.str dockerfile_contents)
    let a := dinsert a "commit_id" (.str (wf.commit_id.getD ""))
    let a := dinsert a "base-image-id" (.str bpair.2)
    let a := dinsert a "base-image-name" (.str bpair.1)
    let a := dinsert a "image-id" (.str (wf.image_id.getD ""))
    dinsert a "parent_images"
      (.str (jsonDumps (.dict (parents.map fun kv => (kv.1, PyVal.str kv.2)))))

/-- `set_koji_task_annotations_whitelist`: attach the configured whitelist
when present and truthy. -/
def whitelistStep (wf : Workflow) (a : List (String × PyVal)) :
    List (String × PyVal) :=
  match wf.task_annotations_whitelist with
  | some w =>
    if w.isTruthy then dinsert a "koji_task_annotations_whitelist" (.str (jsonDumps w))
    else a
  | Option.none => a

/-- The annotation record of `run` just before the three merge steps (the
dict literal, the build-type branch, media types, tar metadata and remote
sources). -/
def annotationsBeforeMerges (wf : Workflow) : List (String × PyVal) :=
  remoteStep wf (tarStep wf (mediaStep wf (branchAnnotations wf (baseAnnotations wf))))

/-- The full annotation record assembled by `run`: the pre-merge record,
then the configuration map, plugin annotations and build-result
annotations merges, then the whitelist step. -/
def assembleAnnotations (wf : Workflow) : List (String × PyVal) :=
  whitelistStep wf
    (update_annotations
      (update_annotations
        (dupdate (annotationsBeforeMerges wf) (get_config_map wf))
        wf.annotations)
      wf.build_result.annotations)

/-- One remote interaction of `run` against the build-tracking system. -/
inductive RemoteCall where
  | updateAnnotationsOnBuild : String → List (String × PyVal) → RemoteCall
  | updateLabelsOnBuild : String → List (String × PyVal) → RemoteCall

/-- The failures `run` can surface: the missing `pipeline_run_name`
(a `KeyError` re-raised after logging) and a remote `OsbsResponseException`
re-raised after logging the payload. -/
inductive RunError where
  | missingPipelineRunName : RunError
  | osbsResponseError : RunError

/-- `StoreMetadataPlugin.run`.  The success of the two remote calls is an
input (`annotationsOk` / `labelsOk`); the returned trace lists the remote
calls made, in order. -/
def run (wf : Workflow) (annotationsOk labelsOk : Bool) :
    Except RunError (List (String × PyVal) × List (String × PyVal)) × List RemoteCall :=
  match dget? wf.user_params "pipeline_run_name" with
  | Option.none => (.error .missingPipelineRunName, [])
  | some pipeline_run_name =>
    let annotations := assembleAnnotations wf
    let calls := [RemoteCall.updateAnnotationsOnBuild pipeline_run_name annotations]
    if annotationsOk then
      let labels := make_labels wf
      if labels.isEmpty then (.ok (annotations, labels), calls)
      else
        let calls := calls ++ [RemoteCall.updateLabelsOnBuild pipeline_run_name labels]
        if labelsOk then (.ok (annotations, labels), calls)
        else (.error .osbsResponseError, calls)
    else (.error .osbsResponseError, calls)

/-- Spec-side accessor, following the spec's words for refinement: a stage
key absent from the store or mapping to a failure marker yields the empty
default, a success yields its payload. -/
def specResultAccessor : Option StageResult → PyVal
  | some (StageResult.success p) => p
  | _ => PyVal.str ""

/-- Spec-side pair enumeration, following the spec's words for refinement:
the (image, content-type, digest) triples for which the image is present
in the digest map and the content type has a digest, in input image order
and then content-type iteration order. -/
def specPullSpecPairs (tc : TagConf) (digests : List (String × ManifestDigest)) :
    List (ImageName × String × String) :=
  (TagConf.images tc).flatMap fun image =>
    match dget? digests image.to_str with
    | Option.none => []
    | some digest =>
      digest.content_type.filterMap fun digest_version =>
        (dget? digest.entries digest_version).map fun d => (image, digest_version, d)

/-- The record the spec expects for one qualifying (image, content-type,
digest) triple. -/
def specPairRecord (p : ImageName × String × String) : PullSpec :=
  { registry := p.1.registry, repository := p.1.to_str_no_registry_no_tag,
    tag := p.1.tag, digest := p.2.2, version := p.2.1 }

/-- Every value of the record is a Python string. -/
def allStringValues (d : List (String × PyVal)) : Prop :=
  ∀ k v, dget? d k = some v → v.isStr = true

/-- Every entry of the association list carries a Python string. -/
def allStrEntries (d : List (String × PyVal)) : Prop :=
  ∀ kv ∈ d, kv.2.isStr = true

/-- A baseline workflow for concrete instantiations: empty stores, no
images, no artifacts. -/
def wfBase : Workflow :=
  { user_params := [("pipeline_run_name", "run-1")]
    prebuild_results := []
    postbuild_results := []
    exit_results := []
    tag_conf := { primary_images := [], unique_images := [], floating_images := [] }
    digests := []
    plugins_errors := .dict []
    plugins_timestamps := .dict []
    plugins_durations := .dict []
    fs_usage := Option.none
    annotations := []
    labels := []
    build_result := { annotations := [], labels := [] }
    task_annotations_whitelist := Option.none
    commit_id := Option.none
    df_path := Option.none
    df_contents := ""
    original_base_image := Option.none
    base_from_scratch := false
    base_image_inspect_id := Option.none
    parent_images := []
    image_id := Option.none
    koji_source_manifest := Option.none
    exported_image_sequence := [] }

/-- Workflow refuting C1 as stated: the whitelist key is supplied by both
the plugin annotations and the build-result annotations, and a task
whitelist is configured. -/
def wfC1cex : Workflow :=
  { wfBase with
      annotations := [("koji_task_annotations_whitelist", .str "p")]
      build_result := { annotations := [("koji_task_annotations_whitelist", .str "b")], labels := [] }
      task_annotations_whitelist := some (.list [.str "a"]) }

/-- Workflow for the C1 witness: one build-result annotation. -/
def wfC1wit : Workflow :=
  { wfBase with
      build_result := { annotations := [("x", .int 3)], labels := [] } }

/-- Workflow for the C2 witness: no `pipeline_run_name` parameter. -/
def wfC2wit : Workflow :=
  { wfBase with user_params := [] }

/-- Workflow refuting C3 as stated: no exported artifact, but the
build-result annotations supply `tar_metadata`. -/
def wfC3cex : Workflow :=
  { wfBase with
      build_result := { annotations := [("tar_metadata", .str "boo")], labels := [] } }

/-- Workflow for the C3 witness: one fully described exported artifact. -/
def wfC3wit : Workflow :=
  { wfBase with
      exported_image_sequence :=
        [{ path := some "dir/image.tar", size := some 42,
           md5sum := some "m5", sha256sum := some "s256" }] }

/-- Workflow refuting C7 as stated: the verify-media stage is absent, but
the configuration map supplies `media-types`. -/
def wfC7cex : Workflow :=
  { wfBase with
      postbuild_results :=
        [(PLUGIN_KOJI_UPLOAD_PLUGIN_KEY, .success (.dict [("media-types", .str "x")]))] }

/-- Workflow for the C7 witness: the verify-media stage reported
`["b", "a", "a"]`. -/
def wfC7wit : Workflow :=
  { wfBase with
      exit_results :=
        [(PLUGIN_VERIFY_MEDIA_KEY, .success (.list [.str "b", .str "a", .str "a"]))] }

/-- Workflow refuting C8 as stated: the configuration map passes a
non-string value through. -/
def wfC8cex : Workflow :=
  { wfBase with
      postbuild_results :=
        [(PLUGIN_KOJI_UPLOAD_PLUGIN_KEY, .success (.dict [("cfg", .int 7)]))] }

/-- Workflow for the C8 witness: string-valued configuration map, plugin
annotations and labels. -/
def wfC8wit : Workflow :=
  { wfBase with
      postbuild_results :=
        [(PLUGIN_KOJI_UPLOAD_PLUGIN_KEY, .success (.dict [("cfg", .str "v")]))]
      annotations := [("plug", .int 9)]
      labels := [("lab", .int 4)] }

/-- Workflow refuting C9 as stated: a full build with an available
dockerfile, but the plugin annotations overwrite the `dockerfile` key. -/
def wfC9cex : Workflow :=
  { wfBase with
      df_path := some "Dockerfile"
      df_contents := "FROM base"
      annotations := [("dockerfile", .str "evil")] }

/-- Workflow for the C9 witness: a full build with no dockerfile path and
no commit id. -/
def wfC9wit : Workflow := wfBase

/-- Workflow refuting C10 as stated: a complete exported artifact, but the
build-result annotations overwrite `tar_metadata`. -/
def wfC10cex : Workflow :=
  { wfBase with
      exported_image_sequence :=
        [{ path := some "a/b.tar", size := some 1,
           md5sum := some "m", sha256sum := some "s" }]
      build_result := { annotations := [("tar_metadata", .str "boo")], labels := [] } }

/-- Workflow for the C10 witness: an artifact whose path has a directory
component. -/
def wfC10wit : Workflow :=
  { wfBase with
      exported_image_sequence :=
        [{ path := some "out/dir/image.tar", size := some 7,
           md5sum := some "md5", sha256sum := some "sha" }] }

theorem dget?_dinsert_self {α : Type} (d : List (String × α)) (k : String) (v : α) :
    dget? (dinsert d k v) k = some v := by
  induction d with
  | nil => simp [dinsert, dget?]
  | cons kv rest ih =>
    obtain ⟨k₀, v₀⟩ := kv
    by_cases h0 : k₀ = k
    · simp [dinsert, dget?, h0]
    · simp [dinsert, dget?, h0, ih]

theorem dget?_dinsert_ne {α : Type} (d : List (String × α)) (k k' : String) (v : α)
    (h : k' ≠ k) : dget? (dinsert d k' v) k = dget? d k := by
  induction d with
  | nil => simp [dinsert, dget?, h]
  | cons kv rest ih =>
    obtain ⟨k₀, v₀⟩ := kv
    by_cases h0 : k₀ = k'
    · have hk : ¬k₀ = k := by rw [h0]; exact h
      simp [dinsert, dget?, h0, hk, h]
    · simp only [dinsert, if_neg h0]
      by_cases hk : k₀ = k
      · simp [dget?, hk]
      · simp [dget?, hk, ih]

theorem dget?_eq_none_iff {α : Type} (d : List (String × α)) (k : String) :
    dget? d k = Option.none ↔ ∀ kv ∈ d, kv.1 ≠ k := by
  induction d with
  | nil => simp [dget?]
  | cons kv rest ih =>
    obtain ⟨k₀, v₀⟩ := kv
    by_cases h0 : k₀ = k
    · simp [dget?, h0]
    · simp [dget?, h0, ih]

theorem dget?_mem {α : Type} (d : List (String × α)) (k : String) (v : α)
    (h : dget? d k = some v) : (k, v) ∈ d := by
  induction d with
  | nil => simp [dget?] at h
  | cons kv rest ih =>
    obtain ⟨k₀, v₀⟩ := kv
    by_cases h0 : k₀ = k
    · subst h0
      simp [dget?] at h
      simp [h]
    · simp [dget?, h0] at h
      exact List.mem_cons_of_mem _ (ih h)

theorem mem_dinsert {α : Type} (d : List (String × α)) (k : String) (v : α) (kv : String × α)
    (h : kv ∈ dinsert d k v) : kv = (k, v) ∨ kv ∈ d := by
  induction d with
  | nil => simpa [dinsert] using h
  | cons kv₀ rest ih =>
    obtain ⟨k₀, v₀⟩ := kv₀
    by_cases h0 : k₀ = k
    · subst h0
      simp [dinsert] at h
      rcases h with h | h
      · subst h; left; rfl
      · right; exact List.mem_cons_of_mem _ h
    · simp [dinsert, h0] at h
      rcases h with h | h
      · subst h; right; exact List.mem_cons_self _ _
      · rcases ih h with h' | h'
        · left; exact h'
        · right; exact List.mem_cons_of_mem _ h'

theorem mem_dupdate {α : Type} (d u : List (String × α)) (kv : String × α)
    (h : kv ∈ dupdate d u) : kv ∈ d ∨ kv ∈ u := by
  induction u generalizing d with
  | nil => exact Or.inl h
  | cons kv₀ rest ih =>
    have h' := ih (dinsert d kv₀.1 kv₀.2) h
    rcases h' with h' | h'
    · rcases mem_dinsert _ _ _ _ h' with h'' | h''
      · right
        rw [h'']
        exact List.mem_cons_self _ _
      · exact Or.inl h''
    · right; exact List.mem_cons_of_mem _ h'

theorem dget?_dupdate_not_mem {α : Type} (d u : List (String × α)) (k : String)
    (h : ∀ kv ∈ u, kv.1 ≠ k) : dget? (dupdate d u) k = dget? d k := by
  induction u generalizing d with
  | nil => rfl
  | cons kv₀ rest ih =>
    have hrest : ∀ kv ∈ rest, kv.1 ≠ k := fun kv hkv => h kv (List.mem_cons_of_mem _ hkv)
    have hk₀ : kv₀.1 ≠ k := h kv₀ (List.mem_cons_self _ _)
    calc dget? (dupdate (dinsert d kv₀.1 kv₀.2) rest) k
        = dget? (dinsert d kv₀.1 kv₀.2) k := ih _ hrest
      _ = dget? d k := dget?_dinsert_ne _ _ _ _ hk₀

theorem dget?_dupdate_of_get {α : Type} (d u : List (String × α)) (k : String) (v : α)
    (hu : (u.map Prod.fst).Nodup) (h : dget? u k = some v) :
    dget? (dupdate d u) k = some v := by
  induction u generalizing d with
  | nil => simp [dget?] at h
  | cons kv₀ rest ih =>
    obtain ⟨k₀, v₀⟩ := kv₀
    rw [List.map_cons, List.nodup_cons] at hu
    by_cases h0 : k₀ = k
    · subst h0
      have hv : v₀ = v := by simpa [dget?] using h
      rw [← hv]
      have hrest : ∀ kv ∈ rest, kv.1 ≠ k₀ := by
        intro kv hkv hEq
        exact hu.1 (hEq ▸ List.mem_map.mpr ⟨kv, hkv, rfl⟩)
      calc dget? (dupdate (dinsert d k₀ v₀) rest) k₀
          = dget? (dinsert d k₀ v₀) k₀ := dget?_dupdate_not_mem _ _ _ hrest
        _ = some v₀ := dget?_dinsert_self _ _ _
    · simp [dget?, h0] at h
      exact ih _ hu.2 h

theorem dget?_map_entries {α β : Type} (u : List (String × α))
    (f : String × α → String × β) (g : α → β)
    (hf : ∀ kv, f kv = (kv.1, g kv.2)) (k : String) :
    dget? (u.map f) k = (dget? u k).map g := by
  induction u with
  | nil => simp [dget?]
  | cons kv rest ih =>
    obtain ⟨k₀, v₀⟩ := kv
    by_cases h0 : k₀ = k
    · simp [dget?, hf, h0]
    · simp [dget?, hf, h0, ih]

theorem keys_map_entries {α β : Type} (u : List (String × α))
    (f : String × α → String × β) (g : α → β)
    (hf : ∀ kv, f kv = (kv.1, g kv.2)) :
    (u.map f).map Prod.fst = u.map Prod.fst := by
  induction u with
  | nil => rfl
  | cons kv rest ih => simp [hf, ih]

theorem update_annotations_eq (a u : List (String × PyVal)) :
    update_annotations a u = dupdate a (u.map fun kv => (kv.1, PyVal.str (jsonDumps kv.2))) := by
  cases u with
  | nil => rfl
  | cons kv rest => rfl

theorem update_labels_eq (labels u : List (String × PyVal)) :
    update_labels labels u = dupdate labels (u.map fun kv => (kv.1, PyVal.str (pyStr kv.2))) := by
  cases u with
  | nil => rfl
  | cons kv rest => rfl

theorem dget?_update_annotations_none (a u : List (String × PyVal)) (k : String)
    (h : dget? u k = Option.none) : dget? (update_annotations a u) k = dget? a k := by
  rw [update_annotations_eq]
  apply dget?_dupdate_not_mem
  intro kv hkv
  rcases List.mem_map.mp hkv with ⟨kv₀, hkv₀, rfl⟩
  exact (dget?_eq_none_iff u k).mp h kv₀ hkv₀

theorem dget?_update_annotations_get (a u : List (String × PyVal)) (k : String) (v : PyVal)
    (hu : (u.map Prod.fst).Nodup) (h : dget? u k = some v) :
    dget? (update_annotations a u) k = some (PyVal.str (jsonDumps v)) := by
  rw [update_annotations_eq]
  apply dget?_dupdate_of_get
  · rw [keys_map_entries _ _ (fun v => PyVal.str (jsonDumps v)) (fun kv => rfl)]
    exact hu
  · rw [dget?_map_entries _ _ (fun v => PyVal.str (jsonDumps v)) (fun kv => rfl), h]
    rfl

theorem dget?_whitelistStep_ne (wf : Workflow) (a : List (String × PyVal)) (k : String)
    (h : k ≠ "koji_task_annotations_whitelist") :
    dget? (whitelistStep wf a) k = dget? a k := by
  unfold whitelistStep
  cases wf.task_annotations_whitelist with
  | none => rfl
  | some w =>
    by_cases hw : w.isTruthy
    · simp [hw, dget?_dinsert_ne _ _ _ _ (Ne.symm h)]
    · simp [hw]

theorem dget?_remoteStep_ne (wf : Workflow) (a : List (String × PyVal)) (k : String)
    (h : k ≠ "remote_sources") :
    dget? (remoteStep wf a) k = dget? a k := by
  unfold remoteStep
  cases remoteSourcesVal? wf with
  | none => rfl
  | some l =>
    cases l with
    | nil => rfl
    | cons x xs => simp [dget?_dinsert_ne _ _ _ _ (Ne.symm h)]

theorem dget?_tarStep_ne (wf : Workflow) (a : List (String × PyVal)) (k : String)
    (h : k ≠ "tar_metadata") :
    dget? (tarStep wf a) k = dget? a k := by
  unfold tarStep
  cases tarInfo wf with
  | none => rfl
  | some t => simp [dget?_dinsert_ne _ _ _ _ (Ne.symm h)]

theorem dget?_tarStep_self (wf : Workflow) (a : List (String × PyVal)) :
    dget? (tarStep wf a) "tar_metadata" =
      match tarInfo wf with
      | some t => some (PyVal.str (jsonDumps (tarMetadataVal t)))
      | Option.none => dget? a "tar_metadata" := by
  unfold tarStep
  cases tarInfo wf with
  | none => rfl
  | some t => simp [dget?_dinsert_self]

theorem dget?_mediaStep_ne (wf : Workflow) (a : List (String × PyVal)) (k : String)
    (h : k ≠ "media-types") :
    dget? (mediaStep wf a) k = dget? a k := by
  unfold mediaStep
  by_cases hm : (mediaTypes wf).isEmpty
  · simp [hm]
  · simp [hm, dget?_dinsert_ne _ _ _ _ (Ne.symm h)]

theorem dget?_mediaStep_self (wf : Workflow) (a : List (String × PyVal)) :
    dget? (mediaStep wf a) "media-types" =
      if (mediaTypes wf).isEmpty then dget? a "media-types"
      else some (PyVal.str (jsonDumps (.list ((pySortedSet (mediaTypes wf)).map PyVal.str)))) := by
  unfold mediaStep
  by_cases hm : (mediaTypes wf).isEmpty
  · simp [hm]
  · simp [hm, dget?_dinsert_self]

theorem dget?_branch_ne (wf : Workflow) (a : List (String × PyVal)) (k : String)
    (h1 : k ≠ "image-id") (h2 : k ≠ "dockerfile") (h3 : k ≠ "commit_id")
    (h4 : k ≠ "base-image-id") (h5 : k ≠ "base-image-name") (h6 : k ≠ "parent_images") :
    dget? (branchAnnotations wf a) k = dget? a k := by
  unfold branchAnnotations
  by_cases hs : source_build wf
  · simp [hs, dget?_dinsert_ne _ _ _ _ (Ne.symm h1)]
  · simp [hs, dget?_dinsert_ne _ _ _ _ (Ne.symm h1), dget?_dinsert_ne _ _ _ _ (Ne.symm h2),
      dget?_dinsert_ne _ _ _ _ (Ne.symm h3), dget?_dinsert_ne _ _ _ _ (Ne.symm h4),
      dget?_dinsert_ne _ _ _ _ (Ne.symm h5), dget?_dinsert_ne _ _ _ _ (Ne.symm h6)]

theorem dget?_base_ne (wf : Workflow) (k : String)
    (h1 : k ≠ "repositories") (h2 : k ≠ "digests")
    (h3 : k ≠ "plugins-metadata") (h4 : k ≠ "filesystem") :
    dget? (baseAnnotations wf) k = Option.none := by
  simp [baseAnnotations, dget?, Ne.symm h1, Ne.symm h2, Ne.symm h3, Ne.symm h4]

theorem beforeMerges_tar (wf : Workflow) :
    dget? (annotationsBeforeMerges wf) "tar_metadata" =
      (tarInfo wf).map fun t => PyVal.str (jsonDumps (tarMetadataVal t)) := by
  unfold annotationsBeforeMerges
  rw [dget?_remoteStep_ne _ _ _ (by decide), dget?_tarStep_self]
  cases h : tarInfo wf with
  | none =>
    rw [dget?_mediaStep_ne _ _ _ (by decide),
        dget?_branch_ne _ _ _ (by decide) (by decide) (by decide) (by decide) (by decide)
          (by decide),
        dget?_base_ne _ _ (by decide) (by decide) (by decide) (by decide)]
    rfl
  | some t => rfl

theorem beforeMerges_media (wf : Workflow) :
    dget? (annotationsBeforeMerges wf) "media-types" =
      if (mediaTypes wf).isEmpty then Option.none
      else some (PyVal.str (jsonDumps (.list ((pySortedSet (mediaTypes wf)).map PyVal.str)))) := by
  unfold annotationsBeforeMerges
  rw [dget?_remoteStep_ne _ _ _ (by decide), dget?_tarStep_ne _ _ _ (by decide),
      dget?_mediaStep_self]
  by_cases hm : (mediaTypes wf).isEmpty
  · rw [if_pos hm, if_pos hm,
        dget?_branch_ne _ _ _ (by decide) (by decide) (by decide) (by decide) (by decide)
          (by decide),
        dget?_base_ne _ _ (by decide) (by decide) (by decide) (by decide)]
  · rw [if_neg hm, if_neg hm]

theorem beforeMerges_dockerfile (wf : Workflow) (hs : source_build wf = false) :
    dget? (annotationsBeforeMerges wf) "dockerfile" =
      some (PyVal.str (match wf.df_path with | some _ => wf.df_contents | Option.none => "")) := by
  unfold annotationsBeforeMerges
  rw [dget?_remoteStep_ne _ _ _ (by decide), dget?_tarStep_ne _ _ _ (by decide),
      dget?_mediaStep_ne _ _ _ (by decide)]
  unfold branchAnnotations
  rw [hs]
  simp only [Bool.false_eq_true, if_false]
  rw [dget?_dinsert_ne _ _ _ _ (by decide), dget?_dinsert_ne _ _ _ _ (by decide),
      dget?_dinsert_ne _ _ _ _ (by decide), dget?_dinsert_ne _ _ _ _ (by decide),
      dget?_dinsert_ne _ _ _ _ (by decide), dget?_dinsert_self]

theorem beforeMerges_commit (wf : Workflow) (hs : source_build wf = false) :
    dget? (annotationsBeforeMerges wf) "commit_id" =
      some (PyVal.str (wf.commit_id.getD "")) := by
  unfold annotationsBeforeMerges
  rw [dget?_remoteStep_ne _ _ _ (by decide), dget?_tarStep_ne _ _ _ (by decide),
      dget?_mediaStep_ne _ _ _ (by decide)]
  unfold branchAnnotations
  rw [hs]
  simp only [Bool.false_eq_true, if_false]
  rw [dget?_dinsert_ne _ _ _ _ (by decide), dget?_dinsert_ne _ _ _ _ (by decide),
      dget?_dinsert_ne _ _ _ _ (by decide), dget?_dinsert_ne _ _ _ _ (by decide),
      dget?_dinsert_self]

theorem dget?_assemble_of_none (wf : Workflow) (k : String)
    (hk : k ≠ "koji_task_annotations_whitelist")
    (h1 : dget? (get_config_map wf) k = Option.none)
    (h2 : dget? wf.annotations k = Option.none)
    (h3 : dget? wf.build_result.annotations k = Option.none) :
    dget? (assembleAnnotations wf) k = dget? (annotationsBeforeMerges wf) k := by
  unfold assembleAnnotations
  rw [dget?_whitelistStep_ne _ _ _ hk,
      dget?_update_annotations_none _ _ _ h3,
      dget?_update_annotations_none _ _ _ h2,
      dget?_dupdate_not_mem _ _ _ ((dget?_eq_none_iff _ _).mp h1)]

theorem mem_insertStr (s a : String) (l : List String) :
    a ∈ insertStr s l ↔ a = s ∨ a ∈ l := by
  induction l with
  | nil => simp [insertStr]
  | cons t rest ih =>
    by_cases h : strLt s t = true
    · simp [insertStr, h]
    · simp [insertStr, h, ih]
      tauto

theorem mem_sortStrs (a : String) (l : List String) : a ∈ sortStrs l ↔ a ∈ l := by
  induction l with
  | nil => simp [sortStrs]
  | cons s rest ih => simp [sortStrs, mem_insertStr, ih]

theorem strLt_iff (a b : String) : strLt a b = true ↔ a < b := by
  rw [strLt, decide_eq_true_eq]
  exact (String.lt_iff_toList_lt).symm

theorem sorted_insertStr (s : String) (l : List String) (hs : s ∉ l)
    (h : List.Sorted (· < ·) l) : List.Sorted (· < ·) (insertStr s l) := by
  induction l with
  | nil => simp [insertStr]
  | cons t rest ih =>
    rw [List.sorted_cons] at h
    by_cases hlt : strLt s t = true
    · simp only [insertStr, if_pos hlt]
      rw [List.sorted_cons]
      constructor
      · intro b hb
        rcases List.mem_cons.mp hb with rfl | hb
        · exact (strLt_iff _ _).mp hlt
        · exact lt_trans ((strLt_iff _ _).mp hlt) (h.1 b hb)
      · exact List.sorted_cons.mpr h
    · have hne : s ≠ t := fun hEq => hs (hEq ▸ List.mem_cons_self _ _)
      have hts : t < s := by
        rcases lt_trichotomy s t with h' | h' | h'
        · exact absurd ((strLt_iff s t).mpr h') hlt
        · exact absurd h' hne
        · exact h'
      simp only [insertStr, if_neg hlt]
      rw [List.sorted_cons]
      constructor
      · intro b hb
        rcases (mem_insertStr s b rest).mp hb with rfl | hb
        · exact hts
        · exact h.1 b hb
      · exact ih (fun hmem => hs (List.mem_cons_of_mem _ hmem)) h.2

theorem sorted_sortStrs (l : List String) (h : l.Nodup) :
    List.Sorted (· < ·) (sortStrs l) := by
  induction l with
  | nil => simp [sortStrs]
  | cons s rest ih =>
    rw [List.nodup_cons] at h
    exact sorted_insertStr s (sortStrs rest)
      (fun hm => h.1 ((mem_sortStrs s rest).mp hm)) (ih h.2)

theorem pySortedSet_sorted (l : List String) : List.Sorted (· < ·) (pySortedSet l) :=
  sorted_sortStrs _ l.nodup_dedup

theorem pySortedSet_nodup (l : List String) : (pySortedSet l).Nodup :=
  (pySortedSet_sorted l).imp ne_of_lt

theorem mem_pySortedSet (a : String) (l : List String) : a ∈ pySortedSet l ↔ a ∈ l := by
  rw [pySortedSet, mem_sortStrs, List.mem_dedup]

theorem basename_no_slash (s : String) : ∀ c ∈ (basename s).data, c ≠ '/' := by
  intro c hc
  have hc' : c ∈ ((s.data.reverse.takeWhile fun c => c ≠ '/').reverse) := hc
  rw [List.mem_reverse] at hc'
  have := List.mem_takeWhile_imp hc'
  simpa using this

theorem basename_ne_of_slash (s : String) (h : '/' ∈ s.data) : basename s ≠ s := by
  intro hEq
  exact basename_no_slash s '/' (by rw [hEq]; exact h) rfl

theorem allStrEntries_nil : allStrEntries [] := by
  intro kv hkv
  cases hkv

theorem allStrEntries_dinsert (d : List (String × PyVal)) (k : String) (v : PyVal)
    (hd : allStrEntries d) (hv : v.isStr = true) : allStrEntries (dinsert d k v) := by
  intro kv hkv
  rcases mem_dinsert _ _ _ _ hkv with rfl | hkv
  · exact hv
  · exact hd kv hkv

theorem allStrEntries_dupdate (d u : List (String × PyVal))
    (hd : allStrEntries d) (hu : allStrEntries u) : allStrEntries (dupdate d u) := by
  intro kv hkv
  rcases mem_dupdate _ _ _ hkv with h | h
  · exact hd kv h
  · exact hu kv h

theorem allStrEntries_update_annotations (a u : List (String × PyVal))
    (ha : allStrEntries a) : allStrEntries (update_annotations a u) := by
  rw [update_annotations_eq]
  apply allStrEntries_dupdate _ _ ha
  intro kv hkv
  rcases List.mem_map.mp hkv with ⟨kv₀, _, rfl⟩
  rfl

theorem allStrEntries_update_labels (a u : List (String × PyVal))
    (ha : allStrEntries a) : allStrEntries (update_labels a u) := by
  rw [update_labels_eq]
  apply allStrEntries_dupdate _ _ ha
  intro kv hkv
  rcases List.mem_map.mp hkv with ⟨kv₀, _, rfl⟩
  rfl

theorem allStrEntries_base (wf : Workflow) : allStrEntries (baseAnnotations wf) := by
  intro kv hkv
  simp [baseAnnotations] at hkv
  rcases hkv with rfl | rfl | rfl | rfl <;> rfl

theorem allStrEntries_branch (wf : Workflow) (a : List (String × PyVal))
    (ha : allStrEntries a) : allStrEntries (branchAnnotations wf a) := by
  unfold branchAnnotations
  by_cases hs : source_build wf = true
  · rw [if_pos hs]
    exact allStrEntries_dinsert _ _ _ ha rfl
  · rw [if_neg hs]
    exact allStrEntries_dinsert _ _ _
      (allStrEntries_dinsert _ _ _
        (allStrEntries_dinsert _ _ _
          (allStrEntries_dinsert _ _ _
            (allStrEntries_dinsert _ _ _
              (allStrEntries_dinsert _ _ _ ha rfl) rfl) rfl) rfl) rfl) rfl

theorem allStrEntries_mediaStep (wf : Workflow) (a : List (String × PyVal))
    (ha : allStrEntries a) : allStrEntries (mediaStep wf a) := by
  unfold mediaStep
  by_cases hm : (mediaTypes wf).isEmpty
  · rw [if_pos hm]
    exact ha
  · rw [if_neg hm]
    exact allStrEntries_dinsert _ _ _ ha rfl

theorem allStrEntries_tarStep (wf : Workflow) (a : List (String × PyVal))
    (ha : allStrEntries a) : allStrEntries (tarStep wf a) := by
  unfold tarStep
  cases tarInfo wf with
  | none => exact ha
  | some t => exact allStrEntries_dinsert _ _ _ ha rfl

theorem allStrEntries_remoteStep (wf : Workflow) (a : List (String × PyVal))
    (ha : allStrEntries a) : allStrEntries (remoteStep wf a) := by
  unfold remoteStep
  cases remoteSourcesVal? wf with
  | none => exact ha
  | some l =>
    cases l with
    | nil => exact ha
    | cons x xs => exact allStrEntries_dinsert _ _ _ ha rfl

theorem allStrEntries_whitelistStep (wf : Workflow) (a : List (String × PyVal))
    (ha : allStrEntries a) : allStrEntries (whitelistStep wf a) := by
  unfold whitelistStep
  split
  · split
    · exact allStrEntries_dinsert _ _ _ ha rfl
    · exact ha
  · exact ha

theorem allStrEntries_beforeMerges (wf : Workflow) :
    allStrEntries (annotationsBeforeMerges wf) :=
  allStrEntries_remoteStep _ _ (allStrEntries_tarStep _ _ (allStrEntries_mediaStep _ _
    (allStrEntries_branch _ _ (allStrEntries_base wf))))

theorem allStrEntries_assemble (wf : Workflow) (hc : allStrEntries (get_config_map wf)) :
    allStrEntries (assembleAnnotations wf) := by
  unfold assembleAnnotations
  exact allStrEntries_whitelistStep _ _
    (allStrEntries_update_annotations _ _
      (allStrEntries_update_annotations _ _
        (allStrEntries_dupdate _ _ (allStrEntries_beforeMerges wf) hc)))

theorem allStrEntries_make_labels (wf : Workflow) : allStrEntries (make_labels wf) := by
  have h0 : allStrEntries (update_labels (update_labels [] wf.labels) wf.build_result.labels) :=
    allStrEntries_update_labels _ _ (allStrEntries_update_labels _ _ allStrEntries_nil)
  unfold make_labels
  cases hd : dget? (update_labels (update_labels [] wf.labels) wf.build_result.labels)
      "sources_for_koji_build_id" with
  | none => exact h0
  | some v => exact allStrEntries_dinsert _ _ _ h0 rfl

theorem allStringValues_of_entries (d : List (String × PyVal)) (h : allStrEntries d) :
    allStringValues d :=
  fun k v hv => h (k, v) (dget?_mem _ _ _ hv)

theorem stage_accessor_eq (store : List (String × StageResult)) (key : String) :
    get_result ((dget? store key).getD (.success (.str ""))) =
      specResultAccessor (dget? store key) := by
  cases dget? store key with
  | none => rfl
  | some r => cases r <;> rfl

/-- C4: for every stage-result store (pre-build, post-build or exit-stage)
and every stage key, the result accessor is the total function that
returns the stored success payload when the key maps to a success and the
empty default otherwise — an absent key and a stored failure marker both
yield the empty default, so the two are indistinguishable to callers and
no error is ever raised. -/
theorem c4_result_accessor_uniform (wf : Workflow) (key : String) :
    get_pre_result wf key = specResultAccessor (dget? wf.prebuild_results key) ∧
    get_post_result wf key = specResultAccessor (dget? wf.postbuild_results key) ∧
    get_exit_result wf key = specResultAccessor (dget? wf.exit_results key) :=
  ⟨stage_accessor_eq _ _, stage_accessor_eq _ _, stage_accessor_eq _ _⟩

/-- C5: the classify operation returns exactly the three named groups
(primary, unique, floating) of string renderings, and their concatenation,
without reordering or deduplication, is exactly the rendering of the input
image sequence in input order. -/
theorem c5_classify_partition (tc : TagConf) :
    (get_repositories tc).primary ++ (get_repositories tc).unique ++
      (get_repositories tc).floating = (TagConf.images tc).map ImageName.to_str := by
  simp [get_repositories, TagConf.images]

/-- C2: whenever the build-run identity (`pipeline_run_name`) is absent
from the input parameters, `run` fails with an error and the remote-call
trace is empty: neither updateAnnotations nor updateLabels is invoked. -/
theorem c2_missing_run_name_aborts (wf : Workflow) (aok lok : Bool)
    (h : dget? wf.user_params "pipeline_run_name" = Option.none) :
    run wf aok lok = (.error .missingPipelineRunName, []) := by
  unfold run
  rw [h]

/-- Witness for C2 at a concrete workflow with no parameters. -/
theorem c2_missing_run_name_aborts_witness :
    run wfC2wit true true = (.error .missingPipelineRunName, []) :=
  c2_missing_run_name_aborts wfC2wit true true rfl

theorem filterMap_pullspec (img : ImageName) (entries : List (String × String))
    (cts : List String) :
    (cts.filterMap fun ct =>
        match dget? entries ct with
        | Option.none => Option.none
        | some dg =>
          some { registry := img.registry, repository := img.to_str_no_registry_no_tag,
                 tag := img.tag, digest := dg, version := ct : PullSpec }) =
      (cts.filterMap fun ct =>
        (dget? entries ct).map fun dg => (img, ct, dg)).map specPairRecord := by
  induction cts with
  | nil => rfl
  | cons ct rest ih =>
    cases hct : dget? entries ct with
    | none => simp [List.filterMap_cons, hct, ih]
    | some dg => simp [List.filterMap_cons, hct, ih, specPairRecord]

/-- C6: the pull-spec list is exactly one record per qualifying
(image, content-type, digest) triple — image present in the digest map and
content type having a digest — in input image order and then content-type
iteration order; images absent from the digest map and content types
without a digest contribute nothing. -/
theorem c6_pullspecs_exactly_qualifying (tc : TagConf)
    (digests : List (String × ManifestDigest)) :
    get_pullspecs tc digests = (specPullSpecPairs tc digests).map specPairRecord := by
  unfold get_pullspecs specPullSpecPairs
  induction TagConf.images tc with
  | nil => rfl
  | cons img rest ih =>
    rw [List.flatMap_cons, List.flatMap_cons, List.map_append, ih]
    congr 1
    cases dget? digests img.to_str with
    | none => rfl
    | some d => exact filterMap_pullspec img d.entries d.content_type

/-- Counterexample to C1 as stated: at `wfC1cex` the key
`koji_task_annotations_whitelist` is present in both the plugin
annotations and the build-result annotations, yet the assembled record
does not hold the build-result value — the later whitelist step of `run`
overwrote it, so build-result annotations do not take final precedence
for this key. -/
theorem c1_counterexample :
    dget? wfC1cex.annotations "koji_task_annotations_whitelist" = some (PyVal.str "p") ∧
    dget? wfC1cex.build_result.annotations "koji_task_annotations_whitelist" =
      some (PyVal.str "b") ∧
    dget? (assembleAnnotations wfC1cex) "koji_task_annotations_whitelist" ≠
      some (PyVal.str (jsonDumps (PyVal.str "b"))) := by
  refine ⟨rfl, rfl, ?_⟩
  intro h
  rw [show dget? (assembleAnnotations wfC1cex) "koji_task_annotations_whitelist"
      = some (PyVal.str "[\"a\"]") from rfl] at h
  exact absurd (PyVal.str.inj (Option.some.inj h)) (by decide)

/-- C1 amended: the three merges are applied in the order configuration
map, plugin annotations, build-result annotations, each overwriting
earlier values for the same key, and for every key other than
`koji_task_annotations_whitelist` (which a configured whitelist overwrites
in a later step) the assembled record holds the value from the latest
source: the JSON-encoded build-result value when present, else the
JSON-encoded plugin value when present, else the raw configuration-map
value. -/
theorem c1_amended_precedence (wf : Workflow) (k : String)
    (hk : k ≠ "koji_task_annotations_whitelist")
    (hcfg : ((get_config_map wf).map Prod.fst).Nodup)
    (hplug : (wf.annotations.map Prod.fst).Nodup)
    (hbr : (wf.build_result.annotations.map Prod.fst).Nodup) :
    (∀ v, dget? wf.build_result.annotations k = some v →
      dget? (assembleAnnotations wf) k = some (PyVal.str (jsonDumps v))) ∧
    (dget? wf.build_result.annotations k = Option.none →
      ∀ v, dget? wf.annotations k = some v →
        dget? (assembleAnnotations wf) k = some (PyVal.str (jsonDumps v))) ∧
    (dget? wf.build_result.annotations k = Option.none →
      dget? wf.annotations k = Option.none →
      ∀ v, dget? (get_config_map wf) k = some v →
        dget? (assembleAnnotations wf) k = some v) := by
  refine ⟨?_, ?_, ?_⟩
  · intro v hv
    unfold assembleAnnotations
    rw [dget?_whitelistStep_ne _ _ _ hk]
    exact dget?_update_annotations_get _ _ _ _ hbr hv
  · intro hbrnone v hv
    unfold assembleAnnotations
    rw [dget?_whitelistStep_ne _ _ _ hk, dget?_update_annotations_none _ _ _ hbrnone]
    exact dget?_update_annotations_get _ _ _ _ hplug hv
  · intro hbrnone hplugnone v hv
    unfold assembleAnnotations
    rw [dget?_whitelistStep_ne _ _ _ hk, dget?_update_annotations_none _ _ _ hbrnone,
        dget?_update_annotations_none _ _ _ hplugnone]
    exact dget?_dupdate_of_get _ _ _ _ hcfg hv

/-- Witness for the amended C1: at `wfC1wit` the build-result annotation
for key `x` appears JSON-encoded in the assembled record. -/
theorem c1_amended_precedence_witness :
    dget? (assembleAnnotations wfC1wit) "x" = some (PyVal.str "3") := by
  have h := (c1_amended_precedence wfC1wit "x" (by decide) (by decide) (by decide)
      (by decide)).1 (PyVal.int 3) rfl
  rw [show jsonDumps (PyVal.int 3) = "3" from rfl] at h
  exact h

theorem tarInfo_isSome_iff (wf : Workflow) :
    (tarInfo wf).isSome = true ↔
      ∃ info, wf.exported_image_sequence.getLast? = some info ∧
        info.path.isSome ∧ info.size.isSome ∧ info.md5sum.isSome ∧ info.sha256sum.isSome := by
  unfold tarInfo
  cases hlast : wf.exported_image_sequence.getLast? with
  | none => simp
  | some info =>
    obtain ⟨po, so, mo, ho⟩ := info
    cases po <;> cases so <;> cases mo <;> cases ho <;> simp

/-- Counterexample to C3 as stated: at `wfC3cex` there is no exported
artifact at all (so no field of the most recent artifact is present), yet
`tar_metadata` is present in the assembled record, injected by the
build-result annotations merge. -/
theorem c3_counterexample :
    ¬ ((dget? (assembleAnnotations wfC3cex) "tar_metadata").isSome = true ↔
      ∃ info, wfC3cex.exported_image_sequence.getLast? = some info ∧
        info.path.isSome ∧ info.size.isSome ∧ info.md5sum.isSome ∧ info.sha256sum.isSome) := by
  intro h
  obtain ⟨info, hinfo, -⟩ := h.mp (by rfl)
  rw [show wfC3cex.exported_image_sequence = [] from rfl] at hinfo
  simp at hinfo

/-- C3 amended: provided none of the configuration map, the plugin
annotations and the build-result annotations supplies the `tar_metadata`
key, that key is present in the assembled record iff a most recently
exported artifact exists and all four of its path, size, md5 and sha256
fields are present; if any is missing the key is absent. -/
theorem c3_amended_tar_all_or_nothing (wf : Workflow)
    (h1 : dget? (get_config_map wf) "tar_metadata" = Option.none)
    (h2 : dget? wf.annotations "tar_metadata" = Option.none)
    (h3 : dget? wf.build_result.annotations "tar_metadata" = Option.none) :
    (dget? (assembleAnnotations wf) "tar_metadata").isSome = true ↔
      ∃ info, wf.exported_image_sequence.getLast? = some info ∧
        info.path.isSome ∧ info.size.isSome ∧ info.md5sum.isSome ∧ info.sha256sum.isSome := by
  rw [dget?_assemble_of_none wf _ (by decide) h1 h2 h3, beforeMerges_tar,
      ← tarInfo_isSome_iff]
  cases tarInfo wf <;> simp

/-- Witness for the amended C3: at `wfC3wit` the artifact is complete and
the key is present. -/
theorem c3_amended_tar_witness :
    (dget? (assembleAnnotations wfC3wit) "tar_metadata").isSome = true :=
  (c3_amended_tar_all_or_nothing wfC3wit rfl rfl rfl).mpr
    ⟨{ path := some "dir/image.tar", size := some 42, md5sum := some "m5",
       sha256sum := some "s256" }, rfl, rfl, rfl, rfl, rfl⟩

theorem strItems_map_str (ms : List String) :
    (PyVal.list (ms.map PyVal.str)).strItems = ms := by
  have hmap : ∀ l : List String,
      (l.map PyVal.str).map (fun v => match v with | PyVal.str s => s | _ => "") = l := by
    intro l
    induction l with
    | nil => rfl
    | cons m rest ih =>
      simp only [List.map_cons]
      rw [ih]
  exact hmap ms

theorem mediaTypes_absent (wf : Workflow)
    (h : dget? wf.exit_results PLUGIN_VERIFY_MEDIA_KEY = Option.none) :
    mediaTypes wf = [] := by
  unfold mediaTypes
  rw [h]

theorem mediaTypes_failure (wf : Workflow)
    (h : dget? wf.exit_results PLUGIN_VERIFY_MEDIA_KEY = some StageResult.failure) :
    mediaTypes wf = [] := by
  unfold mediaTypes
  rw [h]

theorem mediaTypes_success_list (wf : Workflow) (ms : List String)
    (h : dget? wf.exit_results PLUGIN_VERIFY_MEDIA_KEY =
      some (StageResult.success (.list (ms.map PyVal.str)))) :
    mediaTypes wf = ms := by
  unfold mediaTypes
  rw [h]
  cases ms with
  | nil => rfl
  | cons m rest =>
    simp only [List.map_cons, PyVal.isTruthy, List.isEmpty_cons, Bool.not_false, if_true]
    exact strItems_map_str (m :: rest)

/-- Counterexample to C7 as stated: at `wfC7cex` the verify-media stage
result is absent, yet the `media-types` key is present in the assembled
record, injected by the configuration-map merge. -/
theorem c7_counterexample :
    ¬ (dget? wfC7cex.exit_results PLUGIN_VERIFY_MEDIA_KEY = Option.none →
        dget? (assembleAnnotations wfC7cex) "media-types" = Option.none) := by
  intro h
  have h' := h rfl
  rw [show dget? (assembleAnnotations wfC7cex) "media-types"
      = some (PyVal.str "x") from rfl] at h'
  exact Option.noConfusion h'

/-- C7 amended: provided none of the configuration map, the plugin
annotations and the build-result annotations supplies the `media-types`
key, the key is absent whenever the verify-media stage result is absent, a
failure marker, or an empty report, and for a non-empty report the value
is the JSON encoding of the deduplicated, lexicographically sorted list of
the reported media types (the encoded list is strictly sorted,
duplicate-free, and has exactly the reported strings as members). -/
theorem c7_amended_media_types (wf : Workflow)
    (h1 : dget? (get_config_map wf) "media-types" = Option.none)
    (h2 : dget? wf.annotations "media-types" = Option.none)
    (h3 : dget? wf.build_result.annotations "media-types" = Option.none) :
    (dget? wf.exit_results PLUGIN_VERIFY_MEDIA_KEY = Option.none →
      dget? (assembleAnnotations wf) "media-types" = Option.none) ∧
    (dget? wf.exit_results PLUGIN_VERIFY_MEDIA_KEY = some StageResult.failure →
      dget? (assembleAnnotations wf) "media-types" = Option.none) ∧
    (∀ ms : List String,
      dget? wf.exit_results PLUGIN_VERIFY_MEDIA_KEY =
          some (StageResult.success (.list (ms.map PyVal.str))) →
      (ms = [] → dget? (assembleAnnotations wf) "media-types" = Option.none) ∧
      (ms ≠ [] →
        dget? (assembleAnnotations wf) "media-types" =
          some (PyVal.str (jsonDumps (.list ((pySortedSet ms).map PyVal.str)))) ∧
        List.Sorted (· < ·) (pySortedSet ms) ∧ (pySortedSet ms).Nodup ∧
        ∀ s, s ∈ pySortedSet ms ↔ s ∈ ms)) := by
  have hbase : dget? (assembleAnnotations wf) "media-types" =
      if (mediaTypes wf).isEmpty then Option.none
      else some (PyVal.str (jsonDumps (.list ((pySortedSet (mediaTypes wf)).map PyVal.str)))) := by
    rw [dget?_assemble_of_none wf _ (by decide) h1 h2 h3, beforeMerges_media]
  refine ⟨?_, ?_, ?_⟩
  · intro h
    rw [hbase, mediaTypes_absent wf h]
    rfl
  · intro h
    rw [hbase, mediaTypes_failure wf h]
    rfl
  · intro ms h
    constructor
    · intro hnil
      rw [hbase, mediaTypes_success_list wf ms h, hnil]
      rfl
    · intro hne
      rw [hbase, mediaTypes_success_list wf ms h,
          if_neg (fun hc => hne (List.isEmpty_iff.mp hc))]
      exact ⟨rfl, pySortedSet_sorted ms, pySortedSet_nodup ms, fun s => mem_pySortedSet s ms⟩

/-- Witness for the amended C7: the report `["b", "a", "a"]` is published
as the JSON list `["a", "b"]`. -/
theorem c7_amended_media_types_witness :
    dget? (assembleAnnotations wfC7wit) "media-types" =
      some (PyVal.str "[\"a\", \"b\"]") := by
  have h := (((c7_amended_media_types wfC7wit rfl rfl rfl).2.2) ["b", "a", "a"] rfl).2
      (by decide)
  have h1 := h.1
  rw [show jsonDumps (PyVal.list ((pySortedSet ["b", "a", "a"]).map PyVal.str))
      = "[\"a\", \"b\"]" from rfl] at h1
  exact h1

/-- Counterexample to C8 as stated: at `wfC8cex` the configuration map
passes the integer value `7` through unserialized, so not every value of
the assembled annotation record is a string. -/
theorem c8_counterexample :
    ¬ (allStringValues (assembleAnnotations wfC8cex) ∧
        allStringValues (make_labels wfC8cex)) := by
  intro h
  have h' := h.1 "cfg" (PyVal.int 7) (by rfl)
  simp [PyVal.isStr] at h'

/-- C8 amended: whenever every configuration-map value is a string, every
value of the assembled annotation record and of the label record is a
string; every source other than the configuration map (base fields, branch
fields, media/tar/remote keys, plugin and build-result annotations, the
whitelist entry, and both label sources) is serialized or stringified
before insertion. -/
theorem c8_amended_all_strings (wf : Workflow)
    (hc : ∀ kv ∈ get_config_map wf, kv.2.isStr = true) :
    allStringValues (assembleAnnotations wf) ∧ allStringValues (make_labels wf) :=
  ⟨allStringValues_of_entries _ (allStrEntries_assemble wf hc),
   allStringValues_of_entries _ (allStrEntries_make_labels wf)⟩

/-- Witness for the amended C8 at a concrete workflow with a string-valued
configuration map, a structured plugin annotation and an integer label. -/
theorem c8_amended_all_strings_witness :
    allStringValues (assembleAnnotations wfC8wit) ∧ allStringValues (make_labels wfC8wit) :=
  c8_amended_all_strings wfC8wit (by decide)

/-- Counterexample to C9 as stated: at `wfC9cex` this is a full build with
an available dockerfile whose raw contents are `FROM base`, yet the
`dockerfile` annotation does not equal those contents — the plugin
annotations merge overwrote it. -/
theorem c9_counterexample :
    source_build wfC9cex = false ∧ wfC9cex.df_path = some "Dockerfile" ∧
    wfC9cex.df_contents = "FROM base" ∧
    dget? (assembleAnnotations wfC9cex) "dockerfile" ≠ some (PyVal.str "FROM base") := by
  refine ⟨rfl, rfl, rfl, ?_⟩
  intro h
  rw [show dget? (assembleAnnotations wfC9cex) "dockerfile"
      = some (PyVal.str "\"evil\"") from rfl] at h
  exact absurd (PyVal.str.inj (Option.some.inj h)) (by decide)

/-- C9 amended: for a full (non-source) build, provided none of the
configuration map, plugin annotations and build-result annotations
supplies the `dockerfile` or `commit_id` keys, the `dockerfile` annotation
equals the raw dockerfile contents when the path is available and the
empty string when it is not, `commit_id` equals the empty string when the
commit identifier is unavailable, and with the run identity present and
the remote calls succeeding, `run` returns successfully (the unavailable
dockerfile does not fail the publish). -/
theorem c9_amended_dockerfile (wf : Workflow) (hs : source_build wf = false)
    (h1 : dget? (get_config_map wf) "dockerfile" = Option.none)
    (h2 : dget? wf.annotations "dockerfile" = Option.none)
    (h3 : dget? wf.build_result.annotations "dockerfile" = Option.none)
    (h4 : dget? (get_config_map wf) "commit_id" = Option.none)
    (h5 : dget? wf.annotations "commit_id" = Option.none)
    (h6 : dget? wf.build_result.annotations "commit_id" = Option.none) :
    (∀ p, wf.df_path = some p →
      dget? (assembleAnnotations wf) "dockerfile" = some (PyVal.str wf.df_contents)) ∧
    (wf.df_path = Option.none →
      dget? (assembleAnnotations wf) "dockerfile" = some (PyVal.str "")) ∧
    (wf.commit_id = Option.none →
      dget? (assembleAnnotations wf) "commit_id" = some (PyVal.str "")) ∧
    (∀ name, dget? wf.user_params "pipeline_run_name" = some name →
      (run wf true true).1 = Except.ok (assembleAnnotations wf, make_labels wf)) := by
  have hdf := dget?_assemble_of_none wf "dockerfile" (by decide) h1 h2 h3
  have hci := dget?_assemble_of_none wf "commit_id" (by decide) h4 h5 h6
  refine ⟨?_, ?_, ?_, ?_⟩
  · intro p hp
    rw [hdf, beforeMerges_dockerfile wf hs, hp]
  · intro hp
    rw [hdf, beforeMerges_dockerfile wf hs, hp]
  · intro hc
    rw [hci, beforeMerges_commit wf hs, hc]
    rfl
  · intro name hname
    unfold run
    rw [hname]
    by_cases hl : (make_labels wf).isEmpty <;> simp [hl]

/-- Witness for the amended C9: at `wfC9wit` (no dockerfile path, no
commit id) both annotations are the empty string and the publish
succeeds. -/
theorem c9_amended_dockerfile_witness :
    dget? (assembleAnnotations wfC9wit) "dockerfile" = some (PyVal.str "") ∧
    dget? (assembleAnnotations wfC9wit) "commit_id" = some (PyVal.str "") ∧
    (run wfC9wit true true).1 = Except.ok (assembleAnnotations wfC9wit, make_labels wfC9wit) := by
  have h := c9_amended_dockerfile wfC9wit rfl rfl rfl rfl rfl rfl rfl
  exact ⟨h.2.1 rfl, h.2.2.1 rfl, h.2.2.2 "run-1" rfl⟩

/-- Counterexample to C10 as stated: at `wfC10cex` the `tar_metadata`
annotation is present, but its value is not the JSON record built from the
exported artifact (with the basename as filename) — the build-result
annotations merge overwrote it. -/
theorem c10_counterexample :
    tarInfo wfC10cex = some { path := "a/b.tar", size := 1, md5sum := "m", sha256sum := "s" } ∧
    dget? (assembleAnnotations wfC10cex) "tar_metadata" ≠
      some (PyVal.str (jsonDumps (tarMetadataVal
        { path := "a/b.tar", size := 1, md5sum := "m", sha256sum := "s" }))) := by
  refine ⟨rfl, ?_⟩
  intro h
  rw [show dget? (assembleAnnotations wfC10cex) "tar_metadata"
      = some (PyVal.str "\"boo\"") from rfl] at h
  exact absurd (PyVal.str.inj (Option.some.inj h)) (by decide)

/-- C10 amended: provided none of the configuration map, plugin
annotations and build-result annotations supplies the `tar_metadata` key,
whenever that key is present its value is the JSON record whose `filename`
field is the basename of the exported artifact's path; the basename
contains no path separator, and whenever the path has a directory
component the published filename differs from the full path, which is
therefore never published. -/
theorem c10_amended_basename (wf : Workflow) (t : TarInfo) (ht : tarInfo wf = some t)
    (h1 : dget? (get_config_map wf) "tar_metadata" = Option.none)
    (h2 : dget? wf.annotations "tar_metadata" = Option.none)
    (h3 : dget? wf.build_result.annotations "tar_metadata" = Option.none) :
    dget? (assembleAnnotations wf) "tar_metadata" =
      some (PyVal.str (jsonDumps (.dict [("size", .int t.size), ("md5sum", .str t.md5sum),
        ("sha256sum", .str t.sha256sum), ("filename", .str (basename t.path))]))) ∧
    (∀ c ∈ (basename t.path).data, c ≠ '/') ∧
    ('/' ∈ t.path.data → basename t.path ≠ t.path) := by
  refine ⟨?_, basename_no_slash t.path, basename_ne_of_slash t.path⟩
  rw [dget?_assemble_of_none wf _ (by decide) h1 h2 h3, beforeMerges_tar, ht]
  rfl

/-- Witness for the amended C10: the artifact path `out/dir/image.tar` is
published with filename `image.tar`. -/
theorem c10_amended_basename_witness :
    dget? (assembleAnnotations wfC10wit) "tar_metadata" =
      some (PyVal.str (jsonDumps (.dict [("size", .int 7), ("md5sum", .str "md5"),
        ("sha256sum", .str "sha"), ("filename", .str "image.tar")]))) := by
  have h := (c10_amended_basename wfC10wit
      { path := "out/dir/image.tar", size := 7, md5sum := "md5", sha256sum := "sha" }
      rfl rfl rfl rfl).1
  rw [show basename "out/dir/image.tar" = "image.tar" from rfl] at h
  exact h
